import Mathlib

/-!
Verification of the interactive shell in `src/main.rs`.

The program is shallowly embedded: strings are lists of characters with
natural-number indices (the program only manipulates ASCII in the claims at
hand, where Rust byte indices and character indices coincide), fallible
operations that panic in Rust (index out of bounds, `usize` underflow) are
modelled with `Option`, where `none` stands for a panic, and terminal writes
are dropped since they never feed back into program state.
-/

/-- Convert a string literal to the character-list representation used
throughout the development. -/
def str (s : String) : List Char := s.toList

/-- The single-quote character, written via its code point. -/
def squote : Char := Char.ofNat 39

/-- The double-quote character, written via its code point. -/
def dquote : Char := Char.ofNat 34

/-- Rust `usize::MAX`, the initial value of `escape_position` in `read_line`. -/
def usizeMax : Nat := 2 ^ 64 - 1

/-- Rust `String::insert(idx, ch)`: panics (`none`) when `idx > len`. -/
def listInsert : List Char → Nat → Char → Option (List Char)
  | l, 0, c => some (c :: l)
  | [], _ + 1, _ => none
  | x :: xs, n + 1, c => (listInsert xs n c).map (fun r => x :: r)

/-- Rust `String::remove(idx)`: panics (`none`) when `idx ≥ len`. -/
def listRemove : List Char → Nat → Option (List Char)
  | [], _ => none
  | _ :: xs, 0 => some xs
  | x :: xs, n + 1 => (listRemove xs n).map (fun r => x :: r)

/-- Rust `usize` subtraction: panics (`none`) on underflow.  (In release mode
the subtraction wraps instead, but every underflow site in this program feeds
the wrapped value to an indexing operation that then panics, so `none` is the
faithful observable outcome either way.) -/
def checkedSub (a b : Nat) : Option Nat :=
  if b ≤ a then some (a - b) else none

/-- Rust `str::trim`: drop leading and trailing whitespace. -/
def trimChars (l : List Char) : List Char :=
  ((l.dropWhile Char.isWhitespace).reverse.dropWhile Char.isWhitespace).reverse

/-- Rust `str::trim_end`: drop trailing whitespace. -/
def trimEnd (l : List Char) : List Char :=
  (l.reverse.dropWhile Char.isWhitespace).reverse

/-- Association-list lookup, modelling `HashMap::get` on string keys. -/
def lookupAssoc {β : Type} : List (List Char × β) → List Char → Option β
  | [], _ => none
  | (k, v) :: rest, key => if k = key then some v else lookupAssoc rest key

/-! ## Line editor (`read_line`, lines 84-230 of `main.rs`) -/

/-- Key events delivered by termion (`Key::Char`, `Key::Backspace`,
`Key::Up/Down/Left/Right`); enter arrives as `Key::Char('\n')`, and any
other event falls into the wildcard arm. -/
inductive Key where
  | char (c : Char)
  | backspace
  | up
  | down
  | left
  | right
  | otherKey
  deriving DecidableEq

/-- The part of `Config` used by the editor: history commands (each possibly
multi-line) and the browsing position `history_position`.  `init` sets the
position to `history_vector.len()`. -/
structure Config where
  history : List (List Char)
  historyPosition : Nat
  deriving DecidableEq

/-- The local state of `read_line`: `input`, `input_current_index`,
`substitutions_index`, `should_escape`, `escape_position`, plus the borrowed
`Config`.  (`lines_printed` only drives terminal redraws and is dropped.) -/
structure EditorState where
  config : Config
  input : List Char
  cursor : Nat
  subs : List Nat
  shouldEscape : Bool
  escapePosition : Nat
  deriving DecidableEq

/-- The editor state at the top of `read_line`. -/
def initState (cfg : Config) : EditorState :=
  { config := cfg, input := [], cursor := 0, subs := [],
    shouldEscape := false, escapePosition := usizeMax }

/-- One iteration of the key loop of `read_line`.  `some (true, s)` means the
loop broke (enter), `some (false, s)` means it continues with state `s`, and
`none` means the iteration panicked. -/
def step (s : EditorState) (k : Key) : Option (Bool × EditorState) :=
  match k with
  | Key.char c =>
    if c = '\n' then
      -- `Key::Char('\n')`: remove the escaped backslash if one is pending,
      -- then break out of the loop.
      if s.shouldEscape then
        (listRemove s.input s.escapePosition).map (fun inp => (true, { s with input := inp }))
      else some (true, s)
    else
      (listInsert s.input s.cursor c).map (fun inp =>
        let s1 : EditorState := { s with input := inp, cursor := s.cursor + 1 }
        let s2 : EditorState :=
          if c = '\\' then
            { s1 with shouldEscape := true, escapePosition := inp.length - 1 }
          else s1
        let s3 : EditorState :=
          if !s2.shouldEscape && c = '$' then
            { s2 with subs := s2.subs ++ [inp.length - 1] }
          else s2
        (false, s3))
  | Key.backspace =>
    if s.input = [] then some (false, s)
    else
      -- `input.remove(input_current_index - 1)` on a usize index.
      (checkedSub s.cursor 1).bind (fun i =>
        (listRemove s.input i).map (fun inp =>
          let cursor := if 0 < inp.length ∧ 0 < s.cursor then s.cursor - 1 else s.cursor
          (false, { s with input := inp, cursor := cursor })))
  | Key.up =>
    let pos := if 0 < s.config.historyPosition then s.config.historyPosition - 1
               else s.config.historyPosition
    -- `history_vector[pos]` panics when `pos` is out of bounds
    (s.config.history.get? pos).map (fun cmd =>
      (false, { s with config := { s.config with historyPosition := pos },
                       input := cmd, cursor := cmd.length }))
  | Key.down =>
    -- `history_position < history_vector.len() - 1` on usize
    (checkedSub s.config.history.length 1).bind (fun bound =>
      let pos := if s.config.historyPosition < bound then s.config.historyPosition + 1
                 else s.config.historyPosition
      (s.config.history.get? pos).map (fun cmd =>
        (false, { s with config := { s.config with historyPosition := pos },
                         input := cmd, cursor := cmd.length })))
  | Key.left =>
    if 0 < s.input.length ∧ 0 < s.cursor then
      some (false, { s with cursor := s.cursor - 1 })
    else some (false, s)
  | Key.right =>
    if 0 < s.input.length ∧ s.cursor < s.input.length then
      some (false, { s with cursor := s.cursor + 1 })
    else some (false, s)
  | Key.otherKey => some (false, s)

/-- Run the key loop over a list of key events.  The `Bool` records whether
the loop terminated through enter (`true`) or by exhausting the event
stream (`false`, i.e. end of input, after which `read_line` also returns). -/
def runKeys : EditorState → List Key → Option (Bool × EditorState)
  | s, [] => some (false, s)
  | s, k :: ks =>
    match step s k with
    | none => none
    | some (true, s1) => some (true, s1)
    | some (false, s1) => runKeys s1 ks

/-- `read_line`: drive the key loop from the initial editor state and return
the trimmed buffer, the recorded substitution offsets, and the (possibly
mutated) config. -/
def readLine (cfg : Config) (keys : List Key) :
    Option ((List Char × List Nat) × Config) :=
  match runKeys (initState cfg) keys with
  | none => none
  | some (_, s) => some ((trimChars s.input, s.subs), s.config)

/-! ## Continuation parser (`parse_line`, lines 232-278) -/

/-- `LineStatus` from the source (`OK` is the status the spec calls
`Complete`). -/
inductive LineStatus where
  | OK
  | INCOMPLETE
  deriving DecidableEq

/-- The loop state of `parse_line`: accumulated `tokens`, `current_token`,
and the `inside_string` flag. -/
structure ParseState where
  tokens : List (List Char)
  current : List Char
  insideString : Bool
  deriving DecidableEq

/-- The body of the character loop of `parse_line`. -/
def parseChar (st : ParseState) (c : Char) : ParseState :=
  if c = dquote || c = squote then
    if !st.insideString then
      { st with insideString := true }
    else
      { tokens := st.tokens ++ [st.current], current := [], insideString := false }
  else if c.isWhitespace && !st.insideString then
    if st.current ≠ [] then
      { st with tokens := st.tokens ++ [st.current], current := [] }
    else st
  else
    { st with current := st.current ++ [c] }

/-- `parse_line`: tokenize one (trimmed) line and produce the new line
status.  The incoming status seeds `inside_string`. -/
def parseLine (line : List Char) (status : LineStatus) : List (List Char) × LineStatus :=
  let start : ParseState :=
    { tokens := [], current := [],
      insideString := match status with
        | LineStatus.INCOMPLETE => true
        | LineStatus.OK => false }
  let st := (trimChars line).foldl parseChar start
  if st.insideString then
    (st.tokens ++ [st.current ++ ['\n']], LineStatus.INCOMPLETE)
  else if st.current ≠ [] then
    (st.tokens ++ [st.current], LineStatus.OK)
  else
    (st.tokens, LineStatus.OK)

/-! ## Variable expander (`expand_environment_variables`, lines 429-452) -/

/-- The environment lookup `env::var`, abstracted: `none` is the
`VarError` case (variable unset or not unicode). -/
def Env : Type := List Char → Option (List Char)

/-- The result of the expander: success, a `VarError` returned to the
caller, or a Rust panic (string slicing out of range). -/
inductive ExpandResult where
  | ok (line : List Char)
  | varError
  | panicked
  deriving DecidableEq

/-- The delimiter predicate from line 437: whitespace, comma or a quote. -/
def isDelim (c : Char) : Bool :=
  c.isWhitespace || c = ',' || c = squote || c = dquote

/-- `new_line[i..].find(is_delim)` made absolute, with the
`unwrap_or(len - i)` default folded in: the index of the first delimiter at
or after `i`, or `len` when there is none. -/
def findDelimFrom (line : List Char) (i : Nat) : Nat :=
  match (line.drop i).findIdx? isDelim with
  | some r => i + r
  | none => line.length

/-- The body of the marker loop of `expand_environment_variables`: resolve
and splice the marker at `index`.  The two `panicked` cases are the Rust
slice panics `&new_line[index..]` with `index > len` and
`&new_line[index + 1..end_index]` with `index + 1 > end_index`. -/
def expandStep (env : Env) (line : List Char) (index : Nat) : ExpandResult :=
  if line.length < index then ExpandResult.panicked
  else
    let endIndex := findDelimFrom line index
    if endIndex < index + 1 then ExpandResult.panicked
    else
      match env ((line.take endIndex).drop (index + 1)) with
      | none => ExpandResult.varError
      | some value => ExpandResult.ok (line.take index ++ value ++ line.drop endIndex)

/-- The marker loop: process offsets left to right through `expandStep`,
stopping at the first error. -/
def expandLoop (env : Env) : List Char → List Nat → ExpandResult
  | line, [] => ExpandResult.ok line
  | line, index :: rest =>
    match expandStep env line index with
    | ExpandResult.ok newLine => expandLoop env newLine rest
    | ExpandResult.varError => ExpandResult.varError
    | ExpandResult.panicked => ExpandResult.panicked

/-- `expand_environment_variables`: iterate over
`substitutions_index.iter().rev()`. -/
def expand_environment_variables (env : Env) (line : List Char) (subs : List Nat) :
    ExpandResult :=
  expandLoop env line subs.reverse

/-- Follows the wording of the spec, for comparison with `expandStep`: for a
marker at offset `i` the variable name spans from `i + 1` up to but excluding
the next whitespace, comma, or quote character, or end of string, and the
environment value is spliced in place of the whole dollar-name span. -/
def expandStepSpec (env : Env) (line : List Char) (index : Nat) : ExpandResult :=
  let nameEnd := findDelimFrom line (index + 1)
  match env ((line.take nameEnd).drop (index + 1)) with
  | none => ExpandResult.varError
  | some value => ExpandResult.ok (line.take index ++ value ++ line.drop nameEnd)

/-! ## Command dispatcher (`execute`, lines 280-315) -/

/-- The outcome of `Command::status()`: the child ran and reported
`status.code()` (`none` when killed by a signal) together with
`status.success()`, or spawning failed. -/
inductive SpawnOutcome where
  | ran (code : Option Int) (success : Bool)
  | spawnError
  deriving DecidableEq

/-- Diagnostics printed to stderr by `execute`. -/
inductive ShellMsg where
  | builtinFailed
  | childFailed
  | commandNotFound
  deriving DecidableEq

/-- The type of a builtin, `fn(&Vec<String>) -> Result<(), String>`. -/
def BuiltinFn : Type := List (List Char) → Except (List Char) Unit

/-- `execute`: dispatch a token list against the builtin registry or an
external spawn, returning the optional exit code and the stderr
diagnostics.  The function always returns (the shell itself is never
terminated by dispatch). -/
def execute (tokens : List (List Char)) (builtins : List (List Char × BuiltinFn))
    (spawn : List Char → List (List Char) → SpawnOutcome) :
    Option Int × List ShellMsg :=
  match tokens with
  | [] => (none, [])
  | program :: args =>
    match lookupAssoc builtins program with
    | some builtin =>
      match builtin (program :: args) with
      | Except.error _ => (some 1, [ShellMsg.builtinFailed])
      | Except.ok _ => (some 0, [])
    | none =>
      match spawn program args with
      | SpawnOutcome.ran code success =>
        (code, if success then [] else [ShellMsg.childFailed])
      | SpawnOutcome.spawnError => (none, [ShellMsg.commandNotFound])

/-! ## REPL inner loop (`main`, lines 494-531) -/

/-- The per-command state of the inner REPL loop: `entry.command`, the token
accumulator and the current `line_status`. -/
structure ReplState where
  commandText : List Char
  tokens : List (List Char)
  lineStatus : LineStatus
  deriving DecidableEq

/-- What one inner-loop iteration decides: prompt again (`continue`, with a
flag recording whether an expansion error was printed) or break out and
dispatch (`done`). -/
inductive ReplOutcome where
  | again (s : ReplState) (expansionErrorReported : Bool)
  | done (s : ReplState)
  deriving DecidableEq

/-- The token-merging logic of lines 515-526 of `main`. -/
def mergeTokens (tokens currentTokens : List (List Char)) : List (List Char) :=
  match tokens with
  | [] => currentTokens
  | _ :: _ =>
    match currentTokens with
    | [] => tokens
    | c :: cs => tokens.dropLast ++ [tokens.getLastD [] ++ c] ++ cs

/-- One iteration of the inner REPL loop on an already-read line: the short
line check, `entry.command` accumulation, expansion, parsing, token merging
and the break decision. -/
def replStep (env : Env) (s : ReplState) (line : List Char) (subs : List Nat) :
    Option ReplOutcome :=
  if line.length ≤ 1 then some (ReplOutcome.again s false)
  else
    let commandText := s.commandText ++ line ++ ['\n']
    match expand_environment_variables env line subs with
    | ExpandResult.panicked => none
    | ExpandResult.varError =>
      some (ReplOutcome.again { s with commandText := commandText } true)
    | ExpandResult.ok newLine =>
      let parsed := parseLine newLine s.lineStatus
      let tokens := mergeTokens s.tokens parsed.1
      if parsed.2 = LineStatus.OK then
        some (ReplOutcome.done
          { commandText := trimEnd commandText, tokens := tokens, lineStatus := parsed.2 })
      else
        some (ReplOutcome.again
          { commandText := commandText, tokens := tokens, lineStatus := parsed.2 } false)

/-! ## Concrete fixtures used by witnesses and counterexamples -/

/-- The empty environment: every variable is unset. -/
def env0 : Env := fun _ => none

/-- An environment binding `X` to `foo`. -/
def envX : Env := fun n => if n = str "X" then some (str "foo") else none

/-- An environment binding every name to the empty string, so that no
expansion step can fail with a variable error. -/
def envAll : Env := fun _ => some []

/-- An empty history with browsing position `0` (what `init` produces from an
empty history file). -/
def cfg0 : Config := { history := [], historyPosition := 0 }

/-- A one-entry history with browsing position `1 = len` (what `init`
produces from a one-entry history file). -/
def cfg1 : Config := { history := [str "x"], historyPosition := 1 }

/-- A builtin that always fails, standing for a failing `cd`. -/
def cdFail : BuiltinFn := fun _ => Except.error (str "boom")

/-- A builtin that always succeeds. -/
def okBuiltin : BuiltinFn := fun _ => Except.ok ()

/-- A registry with one failing and one succeeding builtin. -/
def bEx : List (List Char × BuiltinFn) := [(str "cd", cdFail), (str "ok", okBuiltin)]

/-- A spawner whose child always runs and exits with code 7. -/
def spawnOk : List Char → List (List Char) → SpawnOutcome :=
  fun _ _ => SpawnOutcome.ran (some 7) true

/-- A spawner that always fails to locate the program. -/
def spawnMissing : List Char → List (List Char) → SpawnOutcome :=
  fun _ _ => SpawnOutcome.spawnError

/-! ## Helper lemmas -/

/-- Characterisation of a successful `listInsert`: the element lands at the
requested position and the position was within bounds. -/
theorem listInsert_spec :
    ∀ (l : List Char) (n : Nat) (c : Char) (l' : List Char),
      listInsert l n c = some l' →
      l' = l.take n ++ c :: l.drop n ∧ n ≤ l.length := by
  intro l
  induction l with
  | nil =>
    intro n c l' h
    cases n with
    | zero =>
      simp only [listInsert, Option.some.injEq] at h
      subst h
      simp
    | succ m => simp [listInsert] at h
  | cons x xs ih =>
    intro n c l' h
    cases n with
    | zero =>
      simp only [listInsert, Option.some.injEq] at h
      subst h
      simp
    | succ m =>
      simp only [listInsert, Option.map_eq_some'] at h
      obtain ⟨r, hr, rfl⟩ := h
      obtain ⟨h1, h2⟩ := ih m c r hr
      subst h1
      simp [Nat.succ_le_succ h2]

/-- `findDelimFrom` never goes below its starting point while it is in
range. -/
theorem findDelimFrom_ge (line : List Char) (i : Nat) (h : i ≤ line.length) :
    i ≤ findDelimFrom line i := by
  unfold findDelimFrom
  cases hf : (line.drop i).findIdx? isDelim with
  | none => exact h
  | some r => exact Nat.le_add_right i r

/-- Skipping a non-delimiter character does not change where the delimiter
search lands. -/
theorem findDelimFrom_shift (line : List Char) (i : Nat) (c : Char)
    (hc : line.get? i = some c) (hd : isDelim c = false) :
    findDelimFrom line i = findDelimFrom line (i + 1) := by
  obtain ⟨hlt, hget⟩ := List.get?_eq_some.mp hc
  have hdrop : line.drop i = c :: line.drop (i + 1) := by
    rw [List.drop_eq_get_cons hlt, hget]
  unfold findDelimFrom
  rw [hdrop, List.findIdx?_cons, hd]
  simp only [Bool.false_eq_true, if_false, List.findIdx?_succ]
  cases hf : (line.drop (i + 1)).findIdx? isDelim with
  | none => simp
  | some r => simp [Nat.add_comm, Nat.add_assoc, Nat.add_left_comm]

/-- On a marker that points at a live `$`, the source's expansion step
computes exactly what the spec's wording describes. -/
theorem expandStep_eq_spec (env : Env) (line : List Char) (index : Nat)
    (hdollar : line.get? index = some '$') :
    expandStep env line index = expandStepSpec env line index := by
  obtain ⟨hlt, _⟩ := List.get?_eq_some.mp hdollar
  have hnd : isDelim '$' = false := by decide
  have hshift := findDelimFrom_shift line index '$' hdollar hnd
  have hge : index + 1 ≤ findDelimFrom line (index + 1) :=
    findDelimFrom_ge line (index + 1) hlt
  unfold expandStep expandStepSpec
  rw [if_neg (by omega), hshift, if_neg (by omega)]

/-! ## Claim C1 -/

/-- Claim C1 counterexample: with a one-entry history and the browsing
position at `len(history) = 1` (exactly the state `init` produces), a single
Down key event reads `history_vector[1]`, out of `[0, 0]`, and panics — the
claim promised that Down at `len(history)` keeps the position and recalls
the live buffer without ever reading out of bounds. -/
theorem c1_counterexample : runKeys (initState cfg1) [Key.down] = none := by
  decide

/-- Claim C1 (amended): with a NON-empty history and a browsing position
strictly below `len(history)`, Up moves the position to `position - 1`
(staying at 0 when already 0), Down clamps the position at
`len(history) - 1`, and both events read only the in-range index they moved
to; but each recall always loads the history record at the new position —
the live buffer is never restored — and at position `len(history)` or on an
empty history the recall index is out of bounds. -/
theorem c1_amended_clamped_recall (s : EditorState)
    (hne : s.config.history ≠ [])
    (hpos : s.config.historyPosition < s.config.history.length) :
    (∃ cmd1,
      s.config.history.get? (s.config.historyPosition - 1) = some cmd1 ∧
      step s Key.up = some (false,
        { s with config := { s.config with historyPosition := s.config.historyPosition - 1 },
                 input := cmd1, cursor := cmd1.length }) ∧
      s.config.historyPosition - 1 < s.config.history.length ∧
      (s.config.historyPosition = 0 → s.config.historyPosition - 1 = 0)) ∧
    (∃ cmd2,
      s.config.history.get?
        (if s.config.historyPosition < s.config.history.length - 1
         then s.config.historyPosition + 1 else s.config.historyPosition) = some cmd2 ∧
      step s Key.down = some (false,
        { s with config := { s.config with historyPosition :=
            (if s.config.historyPosition < s.config.history.length - 1
             then s.config.historyPosition + 1 else s.config.historyPosition) },
                 input := cmd2, cursor := cmd2.length }) ∧
      (if s.config.historyPosition < s.config.history.length - 1
       then s.config.historyPosition + 1 else s.config.historyPosition) <
        s.config.history.length ∧
      (s.config.historyPosition = s.config.history.length - 1 →
        (if s.config.historyPosition < s.config.history.length - 1
         then s.config.historyPosition + 1 else s.config.historyPosition) =
          s.config.historyPosition)) := by
  have hlen : 0 < s.config.history.length := List.length_pos.mpr hne
  constructor
  · have hup : (if 0 < s.config.historyPosition then s.config.historyPosition - 1
               else s.config.historyPosition) = s.config.historyPosition - 1 := by
      split <;> omega
    have hlt1 : s.config.historyPosition - 1 < s.config.history.length := by omega
    refine ⟨_, List.get?_eq_get hlt1, ?_, hlt1, by omega⟩
    simp only [step]
    rw [hup, List.get?_eq_get hlt1]
    simp [Option.map_some']
  · have hsub : checkedSub s.config.history.length 1 = some (s.config.history.length - 1) := by
      unfold checkedSub
      rw [if_pos (by omega)]
    have hlt2 : (if s.config.historyPosition < s.config.history.length - 1
                 then s.config.historyPosition + 1 else s.config.historyPosition) <
                  s.config.history.length := by
      split <;> omega
    refine ⟨_, List.get?_eq_get hlt2, ?_, hlt2, fun h => by split <;> omega⟩
    simp only [step]
    rw [hsub]
    simp only [Option.some_bind]
    rw [List.get?_eq_get hlt2]
    simp [Option.map_some']

/-- Witness for the amended C1 at a concrete two-entry history with the
browsing position at 1. -/
theorem c1_amended_witness :
    ({ history := [str "a", str "b"], historyPosition := 1 } : Config).history ≠ [] ∧
    ({ history := [str "a", str "b"], historyPosition := 1 } : Config).historyPosition <
      ({ history := [str "a", str "b"], historyPosition := 1 } : Config).history.length ∧
    ((∃ cmd1,
      (initState { history := [str "a", str "b"], historyPosition := 1 }).config.history.get?
        ((initState { history := [str "a", str "b"], historyPosition := 1 }).config.historyPosition - 1) = some cmd1 ∧
      step (initState { history := [str "a", str "b"], historyPosition := 1 }) Key.up = some (false,
        { (initState { history := [str "a", str "b"], historyPosition := 1 }) with
            config := { (initState { history := [str "a", str "b"], historyPosition := 1 }).config with
              historyPosition := (initState { history := [str "a", str "b"], historyPosition := 1 }).config.historyPosition - 1 },
            input := cmd1, cursor := cmd1.length }) ∧
      (initState { history := [str "a", str "b"], historyPosition := 1 }).config.historyPosition - 1 <
        (initState { history := [str "a", str "b"], historyPosition := 1 }).config.history.length ∧
      ((initState { history := [str "a", str "b"], historyPosition := 1 }).config.historyPosition = 0 →
        (initState { history := [str "a", str "b"], historyPosition := 1 }).config.historyPosition - 1 = 0)) ∧
    (∃ cmd2,
      (initState { history := [str "a", str "b"], historyPosition := 1 }).config.history.get?
        (if (initState { history := [str "a", str "b"], historyPosition := 1 }).config.historyPosition <
            (initState { history := [str "a", str "b"], historyPosition := 1 }).config.history.length - 1
         then (initState { history := [str "a", str "b"], historyPosition := 1 }).config.historyPosition + 1
         else (initState { history := [str "a", str "b"], historyPosition := 1 }).config.historyPosition) = some cmd2 ∧
      step (initState { history := [str "a", str "b"], historyPosition := 1 }) Key.down = some (false,
        { (initState { history := [str "a", str "b"], historyPosition := 1 }) with
            config := { (initState { history := [str "a", str "b"], historyPosition := 1 }).config with
              historyPosition :=
                (if (initState { history := [str "a", str "b"], historyPosition := 1 }).config.historyPosition <
                    (initState { history := [str "a", str "b"], historyPosition := 1 }).config.history.length - 1
                 then (initState { history := [str "a", str "b"], historyPosition := 1 }).config.historyPosition + 1
                 else (initState { history := [str "a", str "b"], historyPosition := 1 }).config.historyPosition) },
            input := cmd2, cursor := cmd2.length }) ∧
      (if (initState { history := [str "a", str "b"], historyPosition := 1 }).config.historyPosition <
          (initState { history := [str "a", str "b"], historyPosition := 1 }).config.history.length - 1
       then (initState { history := [str "a", str "b"], historyPosition := 1 }).config.historyPosition + 1
       else (initState { history := [str "a", str "b"], historyPosition := 1 }).config.historyPosition) <
        (initState { history := [str "a", str "b"], historyPosition := 1 }).config.history.length ∧
      ((initState { history := [str "a", str "b"], historyPosition := 1 }).config.historyPosition =
          (initState { history := [str "a", str "b"], historyPosition := 1 }).config.history.length - 1 →
        (if (initState { history := [str "a", str "b"], historyPosition := 1 }).config.historyPosition <
            (initState { history := [str "a", str "b"], historyPosition := 1 }).config.history.length - 1
         then (initState { history := [str "a", str "b"], historyPosition := 1 }).config.historyPosition + 1
         else (initState { history := [str "a", str "b"], historyPosition := 1 }).config.historyPosition) =
          (initState { history := [str "a", str "b"], historyPosition := 1 }).config.historyPosition))) :=
  ⟨by decide, by decide,
    c1_amended_clamped_recall (initState { history := [str "a", str "b"], historyPosition := 1 })
      (by decide) (by decide)⟩

/-! ## Claim C2 -/

/-- Claim C2 (code bug): evaluating the editor at the failing input — type
`a`, press Left (cursor now 0 with a non-empty buffer), press Backspace —
panics: `input.remove(input_current_index - 1)` underflows the `usize`
cursor.  The claim (and the spec) say Backspace never panics. -/
theorem c2_backspace_underflow_eval :
    runKeys (initState cfg0) [Key.char 'a', Key.left, Key.backspace] = none := by
  decide

/-! ## Claim C3 -/

/-- Claim C3 counterexample: typing `a`, `b`, Left, `$`, Enter produces the
final raw line `a$b` whose `$` occupies index 1, yet the recorded marker
list is `[2]` — the code records `input.len() - 1` at insertion time, which
is index 2, occupied there by `b`.  So a live `$` typed with the cursor in
the middle of the buffer does not get the index it occupies recorded, and a
non-`$` position is recorded instead. -/
theorem c3_counterexample :
    readLine cfg0 [Key.char 'a', Key.char 'b', Key.left, Key.char '$', Key.char '\n'] =
      some ((str "a$b", [2]), cfg0) ∧
    (str "a$b").get? 1 = some '$' ∧
    (str "a$b").get? 2 = some 'b' := by
  decide

/-- Claim C3 (amended): a `$` typed while no escape is pending appends the
offset `len(buffer before insertion)` — that is `input.len() - 1` after the
insertion — to the marker list; this equals the index the `$` occupies only
when the cursor sits at the end of the buffer, and the recorded offsets are
never adjusted by later mid-buffer insertions, Backspace deletions, or the
final trim. -/
theorem c3_amended_marker_offset (s : EditorState) (b : Bool) (s' : EditorState)
    (hesc : s.shouldEscape = false)
    (hstep : step s (Key.char '$') = some (b, s')) :
    s'.subs = s.subs ++ [s.input.length] ∧
    (s.cursor = s.input.length →
      s'.input = s.input ++ ['$'] ∧ s'.input.get? s.input.length = some '$') := by
  rw [show step s (Key.char '$') =
        (listInsert s.input s.cursor '$').map (fun inp =>
          (false, { s with input := inp, cursor := s.cursor + 1,
                           subs := s.subs ++ [inp.length - 1] })) from by
      simp only [step]
      rw [if_neg (show ¬ (('$' : Char) = '\n') from by decide)]
      congr 1
      funext inp
      rw [if_neg (show ¬ (('$' : Char) = '\\') from by decide)]
      simp [hesc]] at hstep
  rw [Option.map_eq_some'] at hstep
  obtain ⟨inp, hins, hpair⟩ := hstep
  obtain ⟨hshape, hle⟩ := listInsert_spec s.input s.cursor '$' inp hins
  have hlen : inp.length = s.input.length + 1 := by
    subst hshape
    simp [List.length_take, List.length_drop]
    omega
  have hs' : s' = { s with input := inp, cursor := s.cursor + 1,
                           subs := s.subs ++ [inp.length - 1] } :=
    (congrArg Prod.snd hpair).symm
  subst hs'
  refine ⟨by simp [hlen], ?_⟩
  intro hcur
  have hend : inp = s.input ++ ['$'] := by
    subst hshape
    rw [hcur]
    simp
  constructor
  · exact hend
  · rw [hend]
    exact List.get?_concat_length s.input '$'

/-- Witness for the amended C3: typing `$` at the end of the buffer `ab`. -/
theorem c3_amended_witness :
    ({ config := cfg0, input := str "ab", cursor := 2, subs := [],
       shouldEscape := false, escapePosition := usizeMax } : EditorState).shouldEscape = false ∧
    step { config := cfg0, input := str "ab", cursor := 2, subs := [],
           shouldEscape := false, escapePosition := usizeMax } (Key.char '$') =
      some (false, { config := cfg0, input := str "ab$", cursor := 3, subs := [2],
                     shouldEscape := false, escapePosition := usizeMax }) ∧
    (({ config := cfg0, input := str "ab$", cursor := 3, subs := [2],
        shouldEscape := false, escapePosition := usizeMax } : EditorState).subs =
      [] ++ [(str "ab").length] ∧
     ((str "ab").length = (str "ab").length →
       (str "ab$") = str "ab" ++ ['$'] ∧ (str "ab$").get? (str "ab").length = some '$')) :=
  ⟨rfl, by decide,
    c3_amended_marker_offset
      { config := cfg0, input := str "ab", cursor := 2, subs := [],
        shouldEscape := false, escapePosition := usizeMax }
      false
      { config := cfg0, input := str "ab$", cursor := 3, subs := [2],
        shouldEscape := false, escapePosition := usizeMax }
      rfl (by decide)⟩

/-! ## Claim C4 -/

/-- Claim C4 counterexample: the expander iterates the given marker vector
in reverse rather than sorting it, so for the NON-ascending marker list
`[2, 0]` on the line `$a$b` — both offsets point at a `$` — it processes
the offsets in ascending order `0, 2`: replacing at offset 0 first
wipes the whole line (every variable is bound to the empty string), and the
later step at offset 2 then slices out of range and panics, while genuine
descending-order processing (the list `[2, 0]` is itself sorted descending)
succeeds with the empty result.  So the claimed descending processing is
false for arbitrary marker sets. -/
theorem c4_counterexample :
    (str "$a$b").get? 0 = some '$' ∧
    (str "$a$b").get? 2 = some '$' ∧
    ([2, 0] : List Nat).Pairwise (fun a b => b ≤ a) ∧
    expandLoop envAll (str "$a$b") [2, 0] = ExpandResult.ok [] ∧
    expand_environment_variables envAll (str "$a$b") [2, 0] = ExpandResult.panicked ∧
    ExpandResult.panicked ≠ ExpandResult.ok [] := by
  decide

/-- Claim C4 (amended): for marker offsets in ascending order — the order
in which markers are collected during editing — the expander's reverse
iteration over the vector is exactly descending offset order (expressed
here as: the processed order is a permutation of the markers that is sorted
descending); on a marker pointing at a `$`, one expansion step takes the
variable name from `offset + 1` up to but excluding the next whitespace,
comma or quote (or end of string) and splices the environment value over the
`$NAME` span, exactly as the spec words it (`expandStepSpec`); and with `X`
bound to `foo`, expanding `echo $X,$X` with markers at offsets 5 and 8
yields `echo foo,foo`.  (For a non-ascending marker list the code processes
in reverse of the given order, which is not descending.) -/
theorem c4_expand_descending_span_splice
    (env : Env) (line : List Char) (subs : List Nat) (index : Nat)
    (hsorted : subs.Pairwise (fun a b => a ≤ b))
    (hdollar : line.get? index = some '$') :
    (∃ order, order.Perm subs ∧ order.Pairwise (fun a b => b ≤ a) ∧
      expand_environment_variables env line subs = expandLoop env line order) ∧
    expandStep env line index = expandStepSpec env line index ∧
    expand_environment_variables envX (str "echo $X,$X") [5, 8] =
      ExpandResult.ok (str "echo foo,foo") := by
  refine ⟨⟨subs.reverse, List.reverse_perm subs, List.pairwise_reverse.mpr ?_, rfl⟩,
    expandStep_eq_spec env line index hdollar, by decide⟩
  exact hsorted

/-- Witness for C4 at the concrete example line, instantiated at the first
marker (offset 5, which the line holds a `$` at). -/
theorem c4_witness :
    ([5, 8] : List Nat).Pairwise (fun a b => a ≤ b) ∧
    (str "echo $X,$X").get? 5 = some '$' ∧
    ((∃ order, order.Perm [5, 8] ∧ order.Pairwise (fun a b => b ≤ a) ∧
      expand_environment_variables envX (str "echo $X,$X") [5, 8] =
        expandLoop envX (str "echo $X,$X") order) ∧
    expandStep envX (str "echo $X,$X") 5 = expandStepSpec envX (str "echo $X,$X") 5 ∧
    expand_environment_variables envX (str "echo $X,$X") [5, 8] =
      ExpandResult.ok (str "echo foo,foo")) :=
  ⟨by decide, by decide,
    c4_expand_descending_span_splice envX (str "echo $X,$X") [5, 8] 5 (by decide) (by decide)⟩

/-! ## Claim C5 -/

/-- Claim C5 counterexample: with the REPL mid-continuation (an open quoted
string, accumulated tokens `echo` and `hello\n`, status `INCOMPLETE`), a
line referencing the unset variable `Y` makes expansion fail; the loop
reports the error and continues — but the line status is still
`INCOMPLETE`, so the next prompt is the continuation prompt, the previously
accumulated tokens are all retained, and the failed raw line stays recorded
in the pending history text.  The claim said control returns to prompting a
fresh line. -/
theorem c5_counterexample :
    replStep env0
      { commandText := str "echo \"hello\n",
        tokens := [str "echo", str "hello\n"],
        lineStatus := LineStatus.INCOMPLETE }
      (str "$Y a") [0] =
    some (ReplOutcome.again
      { commandText := str "echo \"hello\n$Y a\n",
        tokens := [str "echo", str "hello\n"],
        lineStatus := LineStatus.INCOMPLETE } true) := by
  decide

/-- Claim C5 (amended): if a referenced variable is unset, expansion aborts
as a whole — the step that hits the unset variable makes the entire loop
return the error, with none of the remaining markers processed — and the
REPL reports the error and skips parsing and dispatch of that line; but it
keeps the previously accumulated tokens and the current line status (so
after a failure on a continuation line the next prompt is still a
continuation, not a fresh line), and the failed raw line remains recorded in
the pending history command text. -/
theorem c5_amended_abort (env : Env) (line : List Char) (index : Nat)
    (rest subs : List Nat) (s : ReplState)
    (hstep : expandStep env line index = ExpandResult.varError)
    (hlen : 1 < line.length)
    (hexp : expand_environment_variables env line subs = ExpandResult.varError) :
    expandLoop env line (index :: rest) = ExpandResult.varError ∧
    replStep env s line subs =
      some (ReplOutcome.again { s with commandText := s.commandText ++ line ++ ['\n'] } true) := by
  constructor
  · unfold expandLoop
    rw [hstep]
  · unfold replStep
    rw [if_neg (by omega), hexp]

/-- Witness for the amended C5: the continuation-state scenario of the
counterexample, with marker offset 0 on line `$Y a` and an empty
environment. -/
theorem c5_amended_witness :
    expandStep env0 (str "$Y a") 0 = ExpandResult.varError ∧
    1 < (str "$Y a").length ∧
    expand_environment_variables env0 (str "$Y a") [0] = ExpandResult.varError ∧
    (expandLoop env0 (str "$Y a") (0 :: [7, 9]) = ExpandResult.varError ∧
     replStep env0
       { commandText := str "echo \"hello\n",
         tokens := [str "echo", str "hello\n"],
         lineStatus := LineStatus.INCOMPLETE }
       (str "$Y a") [0] =
       some (ReplOutcome.again
         { commandText := str "echo \"hello\n" ++ str "$Y a" ++ ['\n'],
           tokens := [str "echo", str "hello\n"],
           lineStatus := LineStatus.INCOMPLETE } true)) :=
  ⟨by decide, by decide, by decide,
    c5_amended_abort env0 (str "$Y a") 0 [7, 9] [0]
      { commandText := str "echo \"hello\n",
        tokens := [str "echo", str "hello\n"],
        lineStatus := LineStatus.INCOMPLETE }
      (by decide) (by decide) (by decide)⟩

/-! ## Claim C6 -/

/-- Claim C6 (confirmed): parsing `echo "hello` from status `OK` yields
tokens `[echo, hello\n]` (the open token retained with an appended newline
marker) and status `INCOMPLETE`; parsing the follow-up line `world"` from
`INCOMPLETE` yields `[world]` and status `OK`; the REPL merge concatenates
that first token onto the previous open token, giving exactly
`[echo, hello\nworld]` with status `OK` — shown both on the two
`parseLine`/`mergeTokens` pieces and end-to-end on two `replStep`
iterations; and in general, whenever the accumulated token list is
non-empty (which is the case exactly when the entering status was
`INCOMPLETE`, since an `INCOMPLETE` parse always retains its open token),
the first token of the new call is appended onto the previous last token
and the remaining tokens are appended as new tokens. -/
theorem c6_cross_line_merge (ts cs : List (List Char)) (c : List Char)
    (hne : ts ≠ []) :
    parseLine (str "echo \"hello") LineStatus.OK =
      ([str "echo", str "hello\n"], LineStatus.INCOMPLETE) ∧
    parseLine (str "world\"") LineStatus.INCOMPLETE =
      ([str "world"], LineStatus.OK) ∧
    mergeTokens [str "echo", str "hello\n"] [str "world"] =
      [str "echo", str "hello\nworld"] ∧
    replStep env0 { commandText := [], tokens := [], lineStatus := LineStatus.OK }
        (str "echo \"hello") [] =
      some (ReplOutcome.again
        { commandText := str "echo \"hello\n",
          tokens := [str "echo", str "hello\n"],
          lineStatus := LineStatus.INCOMPLETE } false) ∧
    replStep env0
        { commandText := str "echo \"hello\n",
          tokens := [str "echo", str "hello\n"],
          lineStatus := LineStatus.INCOMPLETE }
        (str "world\"") [] =
      some (ReplOutcome.done
        { commandText := str "echo \"hello\nworld\"",
          tokens := [str "echo", str "hello\nworld"],
          lineStatus := LineStatus.OK }) ∧
    mergeTokens ts (c :: cs) = ts.dropLast ++ [ts.getLastD [] ++ c] ++ cs := by
  refine ⟨by decide, by decide, by decide, by decide, by decide, ?_⟩
  cases ts with
  | nil => exact absurd rfl hne
  | cons t ts2 => rfl

/-- Witness for C6 with the concrete accumulated tokens of the example. -/
theorem c6_witness :
    ([str "echo", str "hello\n"] : List (List Char)) ≠ [] ∧
    mergeTokens [str "echo", str "hello\n"] (str "world" :: []) =
      [str "echo", str "hello\n"].dropLast ++
        [[str "echo", str "hello\n"].getLastD [] ++ str "world"] ++ [] :=
  ⟨by decide,
    (c6_cross_line_merge [str "echo", str "hello\n"] [] (str "world") (by decide)).2.2.2.2.2⟩

/-! ## Claim C7 -/

/-- Claim C7 (confirmed): `execute` returns no exit code for an empty token
list (doing nothing); when the first token names a builtin it invokes it
with the full token list and reports exit code 1 on a builtin error and 0 on
success; otherwise it spawns the first token with the remaining tokens as
arguments and propagates the child's optional exit code verbatim; and when
the program cannot be located or spawned it prints a command-not-found
diagnostic and returns no exit code.  `execute` is a total function — no
branch terminates the shell. -/
theorem c7_dispatch_cases
    (builtins : List (List Char × BuiltinFn))
    (spawn : List Char → List (List Char) → SpawnOutcome)
    (name : List Char) (rest : List (List Char)) :
    execute [] builtins spawn = (none, []) ∧
    (∀ f, lookupAssoc builtins name = some f →
      (∀ e, f (name :: rest) = Except.error e →
        execute (name :: rest) builtins spawn = (some 1, [ShellMsg.builtinFailed])) ∧
      (f (name :: rest) = Except.ok () →
        execute (name :: rest) builtins spawn = (some 0, []))) ∧
    (lookupAssoc builtins name = none →
      (∀ code success, spawn name rest = SpawnOutcome.ran code success →
        execute (name :: rest) builtins spawn =
          (code, if success then [] else [ShellMsg.childFailed])) ∧
      (spawn name rest = SpawnOutcome.spawnError →
        execute (name :: rest) builtins spawn = (none, [ShellMsg.commandNotFound]))) := by
  refine ⟨rfl, fun f hf => ⟨fun e he => ?_, fun hok => ?_⟩,
    fun hn => ⟨fun code success h => ?_, fun h => ?_⟩⟩
  · simp only [execute, hf, he]
  · simp only [execute, hf, hok]
  · simp only [execute, hn, h]
  · simp only [execute, hn, h]

/-- Witness for C7 over the concrete registry `bEx` (a failing `cd` and a
succeeding `ok`), a spawner that exits with code 7, and a spawner that
cannot locate the program. -/
theorem c7_witness :
    lookupAssoc bEx (str "cd") = some cdFail ∧
    lookupAssoc bEx (str "ls") = none ∧
    execute [] bEx spawnOk = (none, []) ∧
    execute [str "cd"] bEx spawnOk = (some 1, [ShellMsg.builtinFailed]) ∧
    execute [str "ok"] bEx spawnOk = (some 0, []) ∧
    execute [str "ls"] bEx spawnOk = (some 7, []) ∧
    execute [str "zz"] bEx spawnMissing = (none, [ShellMsg.commandNotFound]) :=
  ⟨rfl, rfl,
    (c7_dispatch_cases bEx spawnOk (str "cd") []).1,
    ((c7_dispatch_cases bEx spawnOk (str "cd") []).2.1 cdFail rfl).1 (str "boom") rfl,
    ((c7_dispatch_cases bEx spawnOk (str "ok") []).2.1 okBuiltin rfl).2 rfl,
    ((c7_dispatch_cases bEx spawnOk (str "ls") []).2.2 rfl).1 (some 7) true rfl,
    ((c7_dispatch_cases bEx spawnMissing (str "zz") []).2.2 rfl).2 rfl⟩

/-! ## Claim C8 -/

/-- Claim C8 counterexample: typing `e`, `c`, `\` and pressing Enter — a
pending escape is open — removes the backslash but STILL terminates the key
loop (the `true` flag is the loop break), and the resulting line `ec`
parses from status `OK` straight to a `done` outcome with status `OK`: the
line is dispatched, not re-edited as a continuation with status
`INCOMPLETE` as the claim requires. -/
theorem c8_counterexample :
    runKeys (initState cfg0)
      [Key.char 'e', Key.char 'c', Key.char '\\', Key.char '\n'] =
      some (true, { config := cfg0, input := str "ec", cursor := 3, subs := [],
                    shouldEscape := true, escapePosition := 2 }) ∧
    replStep env0 { commandText := [], tokens := [], lineStatus := LineStatus.OK }
        (str "ec") [] =
      some (ReplOutcome.done
        { commandText := str "ec", tokens := [str "ec"], lineStatus := LineStatus.OK }) := by
  decide

/-- Claim C8 (amended): when a pending escape is open and its recorded
position is inside the buffer, Enter removes the marked backslash from the
buffer but still terminates the key-reading loop (flag `true`) and the
trimmed buffer is emitted; the status `INCOMPLETE` (which triggers the
continuation prompt) arises only from the parser ending inside an
unterminated quoted string, never from the escape. -/
theorem c8_amended_enter_escape (s : EditorState) (inp l : List Char)
    (st : LineStatus)
    (hesc : s.shouldEscape = true)
    (hrem : listRemove s.input s.escapePosition = some inp) :
    step s (Key.char '\n') = some (true, { s with input := inp }) ∧
    ((parseLine l st).2 = LineStatus.INCOMPLETE ↔
      ((trimChars l).foldl parseChar
        { tokens := [], current := [],
          insideString := match st with
            | LineStatus.INCOMPLETE => true
            | LineStatus.OK => false }).insideString = true) := by
  constructor
  · simp [step, hesc, hrem]
  · unfold parseLine
    split
    all_goals dsimp only
    all_goals split
    all_goals try simp_all
    all_goals split <;> simp_all

/-- Witness for the amended C8: the buffer `ec\` with a pending escape at
position 2; the parse part is instantiated at line `ab` from status `OK`. -/
theorem c8_amended_witness :
    ({ config := cfg0, input := str "ec\\", cursor := 3, subs := [],
       shouldEscape := true, escapePosition := 2 } : EditorState).shouldEscape = true ∧
    listRemove (str "ec\\") 2 = some (str "ec") ∧
    (step { config := cfg0, input := str "ec\\", cursor := 3, subs := [],
            shouldEscape := true, escapePosition := 2 } (Key.char '\n') =
      some (true, { config := cfg0, input := str "ec", cursor := 3, subs := [],
                    shouldEscape := true, escapePosition := 2 }) ∧
    ((parseLine (str "ab") LineStatus.OK).2 = LineStatus.INCOMPLETE ↔
      ((trimChars (str "ab")).foldl parseChar
        { tokens := [], current := [],
          insideString := match LineStatus.OK with
            | LineStatus.INCOMPLETE => true
            | LineStatus.OK => false }).insideString = true)) :=
  ⟨rfl, by decide,
    c8_amended_enter_escape
      { config := cfg0, input := str "ec\\", cursor := 3, subs := [],
        shouldEscape := true, escapePosition := 2 }
      (str "ec") (str "ab") LineStatus.OK rfl (by decide)⟩

/-! ## Claim C9 -/

/-- Claim C9 counterexample: with a one-entry history, Up moves the browsing
position to 0; then typing the printable character `a` leaves the position
at 0 — not `len(history) = 1` as the claim requires after every
printable-character event. -/
theorem c9_counterexample :
    runKeys (initState cfg1) [Key.up, Key.char 'a'] =
      some (false, { config := { history := [str "x"], historyPosition := 0 },
                     input := str "xa", cursor := 2, subs := [],
                     shouldEscape := false, escapePosition := usizeMax }) ∧
    cfg1.history.length = 1 ∧ (0 : Nat) ≠ cfg1.history.length := by
  decide

/-- Claim C9 (amended): printable-character and Backspace key events leave
the whole `Config` — in particular the history browsing position —
unchanged; `read_line` never resets the position to `len(history)` on
typing or deleting (only Up and Down ever move it). -/
theorem c9_amended_no_reset (s : EditorState) (c : Char) (b1 b2 : Bool)
    (s1 s2 : EditorState)
    (h1 : step s (Key.char c) = some (b1, s1))
    (h2 : step s Key.backspace = some (b2, s2)) :
    s1.config = s.config ∧ s2.config = s.config := by
  constructor
  · simp only [step] at h1
    split at h1
    · split at h1
      · rw [Option.map_eq_some'] at h1
        obtain ⟨inp, _, hpair⟩ := h1
        have hs1 : s1 = { s with input := inp } := (congrArg Prod.snd hpair).symm
        subst hs1
        rfl
      · have hs1 : s1 = s := (congrArg Prod.snd (Option.some.inj h1)).symm
        subst hs1
        rfl
    · rw [Option.map_eq_some'] at h1
      obtain ⟨inp, _, hpair⟩ := h1
      have hs1 := (congrArg Prod.snd hpair).symm
      subst hs1
      dsimp only
      split <;> split <;> rfl
  · simp only [step] at h2
    split at h2
    · have hs2 : s2 = s := (congrArg Prod.snd (Option.some.inj h2)).symm
      subst hs2
      rfl
    · rw [Option.bind_eq_some] at h2
      obtain ⟨i, _, h2m⟩ := h2
      rw [Option.map_eq_some'] at h2m
      obtain ⟨inp, _, hpair⟩ := h2m
      have hs2 := (congrArg Prod.snd hpair).symm
      subst hs2
      rfl

/-- Witness for the amended C9: from the empty initial editor state, typing
`x` and pressing Backspace both leave the config unchanged. -/
theorem c9_amended_witness :
    step (initState cfg0) (Key.char 'x') =
      some (false, { config := cfg0, input := ['x'], cursor := 1, subs := [],
                     shouldEscape := false, escapePosition := usizeMax }) ∧
    step (initState cfg0) Key.backspace = some (false, initState cfg0) ∧
    (({ config := cfg0, input := ['x'], cursor := 1, subs := [],
        shouldEscape := false, escapePosition := usizeMax } : EditorState).config =
        (initState cfg0).config ∧
     (initState cfg0).config = (initState cfg0).config) :=
  ⟨by decide, by decide,
    c9_amended_no_reset (initState cfg0) 'x' false false
      { config := cfg0, input := ['x'], cursor := 1, subs := [],
        shouldEscape := false, escapePosition := usizeMax }
      (initState cfg0) (by decide) (by decide)⟩

/-! ## Claim C10 -/

/-- Claim C10 counterexample: the submitted line `"l"` (three characters, so
it passes the length check) parses to the single one-character token `l`,
is dispatched, and the spawned program `l` runs and returns its exit code —
a program named by one letter IS executed, refuting the final consequence
of the claim. -/
theorem c10_counterexample :
    replStep env0 { commandText := [], tokens := [], lineStatus := LineStatus.OK }
        (str "\"l\"") [] =
      some (ReplOutcome.done
        { commandText := str "\"l\"", tokens := [str "l"], lineStatus := LineStatus.OK }) ∧
    execute [str "l"] [] spawnOk = (some 7, []) ∧
    (str "l").length = 1 := by
  decide

/-- Claim C10 (amended): any submitted line whose trimmed length is at most
1 is silently discarded by the inner REPL loop — the iteration returns
`again` with the state completely unchanged, so the line is not expanded,
not parsed, not dispatched and not recorded; a one-letter program typed as
a bare line therefore never runs, but it can still be executed through a
line that wraps it in quotes (or expands to it), as the quoted line `"l"`
shows. -/
theorem c10_amended_short_line (env : Env) (s : ReplState) (line : List Char)
    (subs : List Nat) (h : line.length ≤ 1) :
    replStep env s line subs = some (ReplOutcome.again s false) ∧
    replStep env0 { commandText := [], tokens := [], lineStatus := LineStatus.OK }
        (str "\"l\"") [] =
      some (ReplOutcome.done
        { commandText := str "\"l\"", tokens := [str "l"], lineStatus := LineStatus.OK }) ∧
    execute [str "l"] [] spawnOk = (some 7, []) := by
  refine ⟨?_, by decide, by decide⟩
  unfold replStep
  rw [if_pos h]

/-- Witness for the amended C10 at the one-character line `a`. -/
theorem c10_amended_witness :
    (str "a").length ≤ 1 ∧
    (replStep env0 { commandText := [], tokens := [], lineStatus := LineStatus.OK }
        (str "a") [] =
      some (ReplOutcome.again
        { commandText := [], tokens := [], lineStatus := LineStatus.OK } false) ∧
    replStep env0 { commandText := [], tokens := [], lineStatus := LineStatus.OK }
        (str "\"l\"") [] =
      some (ReplOutcome.done
        { commandText := str "\"l\"", tokens := [str "l"], lineStatus := LineStatus.OK }) ∧
    execute [str "l"] [] spawnOk = (some 7, [])) :=
  ⟨by decide,
    c10_amended_short_line env0
      { commandText := [], tokens := [], lineStatus := LineStatus.OK }
      (str "a") [] (by decide)⟩
